import Mathlib

/-!
Verification of the sparse-autoencoder component (`src/sae/sae.py`) of the
`sae-lora` repository.  Tensors are modelled as functions `Fin n → ℝ`; the
random draws the code takes from the tensor library (Kaiming/uniform/orthogonal
initializations, Gaussian noise) are passed in as explicit arguments; float
literals (`0.1`, `1e-6`) are modelled as the corresponding rationals in ℝ.
-/

/-- A vector of length `n` with real entries (a 1-d tensor). -/
abbrev Vec (n : ℕ) := Fin n → ℝ

/-- A matrix with `m` rows and `n` columns (a 2-d tensor), indexed row first. -/
abbrev Mat (m n : ℕ) := Fin m → Fin n → ℝ

/-- Dot product of two vectors, as produced by `einops.einsum` contraction. -/
noncomputable def dot {n : ℕ} (u v : Vec n) : ℝ := ∑ j, u j * v j

/-- Sum of squared entries of a vector. -/
noncomputable def normSq {n : ℕ} (v : Vec n) : ℝ := ∑ j, v j ^ 2

/-- Euclidean norm of a vector: `torch.norm(v)` / `v.norm(dim=-1)`. -/
noncomputable def l2norm {n : ℕ} (v : Vec n) : ℝ := Real.sqrt (normSq v)

/-- The Lp norm `torch.norm(v, p)` along the last axis: `(Σ |v i|^p)^(1/p)`. -/
noncomputable def lpNorm (p : ℝ) {n : ℕ} (v : Vec n) : ℝ :=
  (∑ j, |v j| ^ p) ^ ((1 : ℝ) / p)

/-- The rectifier nonlinearity `nn.ReLU()`. -/
noncomputable def relu (x : ℝ) : ℝ := max x 0

/-- `tensor.detach()`: numerically the identity; its gradient-graph effect is
modelled separately by `dDetach` in the dependence semantics below. -/
def detach (x : ℝ) : ℝ := x

/-- The float literal `1e-6` used as epsilon guard in `sae.py`. -/
noncomputable def eps6 : ℝ := 1 / 1000000

/-- Multiplication by a Python bool, as in `b_dec * self.cfg.apply_b_dec_to_input`:
`True` multiplies by 1, `False` by 0. -/
noncomputable def boolVal (b : Bool) : ℝ := if b then 1 else 0

section NormLemmas

variable {n : ℕ}

lemma normSq_nonneg (v : Vec n) : 0 ≤ normSq v :=
  Finset.sum_nonneg fun j _ => sq_nonneg (v j)

lemma l2norm_nonneg (v : Vec n) : 0 ≤ l2norm v := Real.sqrt_nonneg _

lemma l2norm_eq_zero_iff (v : Vec n) : l2norm v = 0 ↔ normSq v = 0 := by
  unfold l2norm
  rw [Real.sqrt_eq_zero' ]
  constructor
  · intro h; exact le_antisymm h (normSq_nonneg v)
  · intro h; exact le_of_eq h

lemma l2norm_eq_one_iff (v : Vec n) : l2norm v = 1 ↔ normSq v = 1 := by
  unfold l2norm
  exact Real.sqrt_eq_one

/-- Scaling every entry of a vector by a nonnegative constant scales its norm. -/
lemma l2norm_smul_right (v : Vec n) (c : ℝ) (hc : 0 ≤ c) :
    l2norm (fun j => v j * c) = l2norm v * c := by
  unfold l2norm normSq
  have h1 : (∑ j, (v j * c) ^ 2) = (∑ j, v j ^ 2) * c ^ 2 := by
    rw [Finset.sum_mul]
    exact Finset.sum_congr rfl fun j _ => by ring
  rw [h1, Real.sqrt_mul (Finset.sum_nonneg fun j _ => sq_nonneg (v j)),
    Real.sqrt_sq hc]

/-- Dividing a vector by its own nonzero norm yields a unit vector. -/
lemma l2norm_div_self (v : Vec n) (h : l2norm v ≠ 0) :
    l2norm (fun j => v j / l2norm v) = 1 := by
  have hinv : 0 ≤ (l2norm v)⁻¹ := inv_nonneg.mpr (l2norm_nonneg v)
  have : (fun j => v j / l2norm v) = fun j => v j * (l2norm v)⁻¹ := by
    funext j; rw [div_eq_mul_inv]
  rw [this, l2norm_smul_right v _ hinv, mul_inv_cancel₀ h]

end NormLemmas

/-! ## Construction-time validation (`SparseAutoencoder.__init__`, lines 41-55)

`cfg.d_in` arrives from a parsed configuration and may be any Python value;
the code checks `isinstance(self.d_in, int)` and raises `ValueError` (the
configuration error) otherwise, then `assert cfg.d_sae is not None`. -/

/-- The Python value held in the configuration's `d_in` field: either an
`int` (with its value) or some non-`int` value. -/
inductive PyDIn where
  | intVal (v : Int)
  | nonInt
deriving DecidableEq

/-- How construction can fail in the validated prelude of `__init__`. -/
inductive InitError where
  | valueError
  | assertionError
deriving DecidableEq

/-- The validation performed at the top of `SparseAutoencoder.__init__`:
raise `ValueError` when `d_in` is not an `int`, then `assert d_sae is not None`.
No other check is made on `d_in` (in particular no positivity check). -/
def init_validation (d_in : PyDIn) (d_sae : Option Int) : Except InitError Unit :=
  match d_in with
  | .nonInt => .error .valueError
  | .intVal _ =>
    match d_sae with
    | none => .error .assertionError
    | some _ => .ok ()

/-! ## The model (`SparseAutoencoder`)

Only the fields read by the operations under verification are modelled; the
five parameter tensors carry the shapes of §3 of the design.  `training` is
the `nn.Module` training-mode flag read by `forward`. -/

/-- The `mse_loss_normalization` config value: the code compares it with the
string `"dense_batch"` and treats every other value as no normalization. -/
inductive MseNormMode where
  | denseBatch
  | other
deriving DecidableEq

/-- The epsilon-guarded divisor `normalization + 1e-6` of the `"dense_batch"`
branch of `_per_item_mse_loss_with_target_norm` (line 383). -/
noncomputable def dense_batch_divisor (normalization : ℝ) : ℝ := normalization + eps6

/-- The epsilon-guarded divisor `1e-6 + l2_norm_ghost_out * 2` of
`calculate_ghost_grad_loss` (line 352). -/
noncomputable def ghost_norm_divisor (l2_norm_ghost_out : ℝ) : ℝ :=
  eps6 + l2_norm_ghost_out * 2

/-- The epsilon-guarded divisor `per_item_mse_loss_ghost_resid + 1e-6` of
`calculate_ghost_grad_loss` (line 360). -/
noncomputable def mse_rescale_divisor (per_item_mse_loss_ghost_resid : ℝ) : ℝ :=
  per_item_mse_loss_ghost_resid + eps6

/-- The unguarded divisor `torch.norm(self.W_dec.data, dim=1)` used by
`set_decoder_norm_to_unit_norm` (line 261) and
`initialize_decoder_norm_constant_norm` (line 272): the raw row norm. -/
noncomputable def decoder_row_norm_divisor {m n : ℕ} (W : Mat m n) (i : Fin m) : ℝ :=
  l2norm (W i)

/-- The parameters and the config fields of a `SparseAutoencoder` instance. -/
structure SparseAutoencoder (d_in d_sae : ℕ) where
  W_enc : Mat d_in d_sae
  b_enc : Vec d_sae
  W_dec : Mat d_sae d_in
  b_dec : Vec d_in
  scaling_factor : Vec d_sae
  l1_coefficient : ℝ
  lp_norm : ℝ
  use_ghost_grads : Bool
  normalize_sae_decoder : Bool
  noise_scale : ℝ
  apply_b_dec_to_input : Bool
  scale_sparsity_penalty_by_decoder_norm : Bool
  mse_loss_normalization : MseNormMode
  training : Bool

/-! ## Encode / decode (`_encode_with_hidden_pre`, `encode`, `decode`)

The Gaussian draw `torch.randn_like(hidden_pre)` is an explicit argument
`noise`; the code multiplies it by `noise_scale` and adds it to `hidden_pre`
only when `noise_scale > 0`. -/

variable {B d_in d_sae : ℕ}

/-- `sae_in = x - (self.b_dec * self.cfg.apply_b_dec_to_input)` (line 141). -/
noncomputable def sae_in (M : SparseAutoencoder d_in d_sae) (x : Fin B → Vec d_in) :
    Fin B → Vec d_in :=
  fun b j => x b j - M.b_dec j * boolVal M.apply_b_dec_to_input

/-- `hidden_pre = einsum(sae_in, W_enc, "... d_in, d_in d_sae -> ... d_sae") + b_enc`
(lines 143-150).  Note the noise is not added here. -/
noncomputable def hidden_pre_calc (M : SparseAutoencoder d_in d_sae)
    (x : Fin B → Vec d_in) : Fin B → Vec d_sae :=
  fun b s => (∑ j, sae_in M x b j * M.W_enc j s) + M.b_enc s

/-- `noisy_hidden_pre`: equals `hidden_pre` unless `noise_scale > 0`, in which
case the scaled Gaussian draw is added (lines 152-155). -/
noncomputable def noisy_hidden_pre (M : SparseAutoencoder d_in d_sae)
    (x : Fin B → Vec d_in) (noise : Fin B → Vec d_sae) : Fin B → Vec d_sae :=
  if M.noise_scale > 0 then
    fun b s => hidden_pre_calc M x b s + noise b s * M.noise_scale
  else
    hidden_pre_calc M x

/-- `_encode_with_hidden_pre`: returns `(feature_acts, hidden_pre)` where
`feature_acts = ReLU(noisy_hidden_pre)` and the returned `hidden_pre` is the
noise-free pre-activation (lines 135-158). -/
noncomputable def encode_with_hidden_pre (M : SparseAutoencoder d_in d_sae)
    (x : Fin B → Vec d_in) (noise : Fin B → Vec d_sae) :
    (Fin B → Vec d_sae) × (Fin B → Vec d_sae) :=
  (fun b s => relu (noisy_hidden_pre M x noise b s), hidden_pre_calc M x)

/-- `encode(x)`: the first component of `_encode_with_hidden_pre` (lines 129-133). -/
noncomputable def encode (M : SparseAutoencoder d_in d_sae)
    (x : Fin B → Vec d_in) (noise : Fin B → Vec d_sae) : Fin B → Vec d_sae :=
  (encode_with_hidden_pre M x noise).1

/-- `decode(feature_acts) = (feature_acts * scaling_factor) @ W_dec + b_dec`
(lines 160-173). -/
noncomputable def decode (M : SparseAutoencoder d_in d_sae)
    (feature_acts : Fin B → Vec d_sae) : Fin B → Vec d_in :=
  fun b j => (∑ s, feature_acts b s * M.scaling_factor s * M.W_dec s j) + M.b_dec j

/-! ## Sparsity terms (lines 175-194) and their construction-time selection -/

/-- `get_sparsity_loss_term_standard`: the Lp norm of the feature activations
along the feature axis (lines 175-182). -/
noncomputable def get_sparsity_loss_term_standard (M : SparseAutoencoder d_in d_sae)
    (feature_acts : Fin B → Vec d_sae) : Fin B → ℝ :=
  fun b => lpNorm M.lp_norm (feature_acts b)

/-- `get_sparsity_loss_term_decoder_norm`: the same Lp norm applied to
`feature_acts * W_dec.norm(dim=1)` (lines 184-194). -/
noncomputable def get_sparsity_loss_term_decoder_norm (M : SparseAutoencoder d_in d_sae)
    (feature_acts : Fin B → Vec d_sae) : Fin B → ℝ :=
  fun b => lpNorm M.lp_norm (fun s => feature_acts b s * l2norm (M.W_dec s))

/-- The sparsity function selected once at construction from
`cfg.scale_sparsity_penalty_by_decoder_norm` (lines 64-67). -/
noncomputable def get_sparsity_loss_term (M : SparseAutoencoder d_in d_sae)
    (feature_acts : Fin B → Vec d_sae) : Fin B → ℝ :=
  if M.scale_sparsity_penalty_by_decoder_norm then
    get_sparsity_loss_term_decoder_norm M feature_acts
  else
    get_sparsity_loss_term_standard M feature_acts

/-! ## Per-item MSE (`_per_item_mse_loss_with_target_norm`, lines 369-386) -/

/-- `_per_item_mse_loss_with_target_norm(preds, target, mode)`: the elementwise
squared error, divided in `dense_batch` mode by the epsilon-guarded per-item
norm of the batch-centered target. -/
noncomputable def per_item_mse_loss_with_target_norm (preds target : Fin B → Vec d_in)
    (mode : MseNormMode) : Fin B → Vec d_in :=
  match mode with
  | .denseBatch =>
    fun b j =>
      (preds b j - target b j) ^ 2 /
        dense_batch_divisor
          (l2norm (fun k => target b k - (∑ b', target b' k) / (B : ℝ)))
  | .other => fun b j => (preds b j - target b j) ^ 2

/-! ## Ghost-gradient loss (`calculate_ghost_grad_loss`, lines 336-366) -/

/-- `dead_neuron_mask.sum()` for a boolean mask: the number of `True` entries. -/
def maskSum {k : ℕ} (m : Fin k → Bool) : ℕ :=
  (Finset.univ.filter (fun s => m s = true)).card

/-- `residual = x - sae_out` (line 345). -/
noncomputable def ghost_residual (x sae_out : Fin B → Vec d_in) : Fin B → Vec d_in :=
  fun b j => x b j - sae_out b j

/-- `ghost_out = exp(hidden_pre[:, dead_neuron_mask]) @ W_dec[dead_neuron_mask, :]`
(lines 349-350): dead neurons contribute `exp` of their pre-activation. -/
noncomputable def ghost_out_raw (M : SparseAutoencoder d_in d_sae)
    (hidden_pre : Fin B → Vec d_sae) (mask : Fin d_sae → Bool) : Fin B → Vec d_in :=
  fun b j => ∑ s, if mask s then Real.exp (hidden_pre b s) * M.W_dec s j else 0

/-- `norm_scaling_factor = l2_norm_residual / (1e-6 + l2_norm_ghost_out * 2)`
(line 352). -/
noncomputable def norm_scaling_factor (M : SparseAutoencoder d_in d_sae)
    (x sae_out : Fin B → Vec d_in) (hidden_pre : Fin B → Vec d_sae)
    (mask : Fin d_sae → Bool) : Fin B → ℝ :=
  fun b =>
    l2norm (ghost_residual x sae_out b) /
      ghost_norm_divisor (l2norm (ghost_out_raw M hidden_pre mask b))

/-- `ghost_out = ghost_out * norm_scaling_factor[:, None].detach()` (line 353). -/
noncomputable def ghost_out_rescaled (M : SparseAutoencoder d_in d_sae)
    (x sae_out : Fin B → Vec d_in) (hidden_pre : Fin B → Vec d_sae)
    (mask : Fin d_sae → Bool) : Fin B → Vec d_in :=
  fun b j =>
    ghost_out_raw M hidden_pre mask b j * detach (norm_scaling_factor M x sae_out hidden_pre mask b)

/-- `per_item_mse_loss_ghost_resid` before the final rescaling: the per-item MSE
between the rescaled ghost reconstruction and the detached residual (lines 356-358). -/
noncomputable def per_item_mse_loss_ghost_resid (M : SparseAutoencoder d_in d_sae)
    (x sae_out : Fin B → Vec d_in) (hidden_pre : Fin B → Vec d_sae)
    (mask : Fin d_sae → Bool) : Fin B → Vec d_in :=
  per_item_mse_loss_with_target_norm
    (ghost_out_rescaled M x sae_out hidden_pre mask)
    (fun b j => detach (ghost_residual x sae_out b j))
    M.mse_loss_normalization

/-- `calculate_ghost_grad_loss`: rescales the ghost per-item loss by the detached
elementwise factor `per_item_mse_loss / (per_item_mse_loss_ghost_resid + 1e-6)`
and takes `.mean()` over all `B * d_in` entries (lines 359-366). -/
noncomputable def calculate_ghost_grad_loss (M : SparseAutoencoder d_in d_sae)
    (x sae_out : Fin B → Vec d_in) (per_item_mse_loss : Fin B → Vec d_in)
    (hidden_pre : Fin B → Vec d_sae) (mask : Fin d_sae → Bool) : ℝ :=
  (∑ b, ∑ j,
      detach (per_item_mse_loss b j /
          mse_rescale_divisor (per_item_mse_loss_ghost_resid M x sae_out hidden_pre mask b j)) *
        per_item_mse_loss_ghost_resid M x sae_out hidden_pre mask b j) /
    ((B : ℝ) * (d_in : ℝ))

/-! ## Forward (`forward`, lines 196-236)

`ghost_grad_loss` in the returned `ForwardOutput` is typed
`torch.Tensor | float` in the source: when the ghost branch is skipped the
Python int `0` is returned, a plain scalar that is not a node of the autodiff
graph.  `GhostVal` keeps that distinction. -/

/-- The `ghost_grad_loss` field of `ForwardOutput`: either a tensor in the
computation graph carrying a value, or the plain Python scalar `0` set by the
`else` branch (line 222), which is not part of any gradient graph. -/
inductive GhostVal where
  | tensor (value : ℝ)
  | pyZero

/-- The numeric value of a `ghost_grad_loss` field. -/
noncomputable def GhostVal.val : GhostVal → ℝ
  | .tensor v => v
  | .pyZero => 0

/-- The output record of `forward` (`ForwardOutput`, lines 22-28). -/
structure ForwardOutput (B d_in d_sae : ℕ) where
  sae_out : Fin B → Vec d_in
  feature_acts : Fin B → Vec d_sae
  loss : ℝ
  mse_loss : ℝ
  l1_loss : ℝ
  ghost_grad_loss : GhostVal

/-- Mean over the batch axis. -/
noncomputable def batchMean (f : Fin B → ℝ) : ℝ := (∑ b, f b) / (B : ℝ)

/-- The `feature_acts` local of `forward` (line 199). -/
noncomputable def forward_feature_acts (M : SparseAutoencoder d_in d_sae)
    (x : Fin B → Vec d_in) (noise : Fin B → Vec d_sae) : Fin B → Vec d_sae :=
  (encode_with_hidden_pre M x noise).1

/-- The `hidden_pre` local of `forward` (line 199). -/
noncomputable def forward_hidden_pre (M : SparseAutoencoder d_in d_sae)
    (x : Fin B → Vec d_in) (noise : Fin B → Vec d_sae) : Fin B → Vec d_sae :=
  (encode_with_hidden_pre M x noise).2

/-- The `sae_out` local of `forward` (line 200). -/
noncomputable def forward_sae_out (M : SparseAutoencoder d_in d_sae)
    (x : Fin B → Vec d_in) (noise : Fin B → Vec d_sae) : Fin B → Vec d_in :=
  decode M (forward_feature_acts M x noise)

/-- The `per_item_mse_loss` local of `forward` (lines 203-205). -/
noncomputable def forward_per_item_mse (M : SparseAutoencoder d_in d_sae)
    (x : Fin B → Vec d_in) (noise : Fin B → Vec d_sae) : Fin B → Vec d_in :=
  per_item_mse_loss_with_target_norm (forward_sae_out M x noise) x M.mse_loss_normalization

/-- The gated ghost term of `forward` (lines 207-222): the ghost branch runs
only when `use_ghost_grads` is set, the model is training, a mask was passed
and its sum is positive; otherwise the Python scalar `0` is used. -/
noncomputable def forward_ghost (M : SparseAutoencoder d_in d_sae)
    (x : Fin B → Vec d_in) (noise : Fin B → Vec d_sae)
    (dead_neuron_mask : Option (Fin d_sae → Bool)) : GhostVal :=
  match dead_neuron_mask with
  | none => .pyZero
  | some m =>
    if M.use_ghost_grads && M.training && decide (0 < maskSum m) then
      .tensor (calculate_ghost_grad_loss M x (forward_sae_out M x noise)
        (forward_per_item_mse M x noise) (forward_hidden_pre M x noise) m)
    else
      .pyZero

/-- The `mse_loss` local of `forward` (line 224): sum over the feature axis,
then mean over the batch. -/
noncomputable def forward_mse_loss (M : SparseAutoencoder d_in d_sae)
    (x : Fin B → Vec d_in) (noise : Fin B → Vec d_sae) : ℝ :=
  batchMean (fun b => ∑ j, forward_per_item_mse M x noise b j)

/-- The `l1_loss` local of `forward` (lines 225-226). -/
noncomputable def forward_l1_loss (M : SparseAutoencoder d_in d_sae)
    (x : Fin B → Vec d_in) (noise : Fin B → Vec d_sae) : ℝ :=
  batchMean (fun b => M.l1_coefficient * get_sparsity_loss_term M (forward_feature_acts M x noise) b)

/-- `forward(x, dead_neuron_mask)` (lines 196-236). -/
noncomputable def forward (M : SparseAutoencoder d_in d_sae)
    (x : Fin B → Vec d_in) (noise : Fin B → Vec d_sae)
    (dead_neuron_mask : Option (Fin d_sae → Bool)) : ForwardOutput B d_in d_sae :=
  { sae_out := forward_sae_out M x noise
    feature_acts := forward_feature_acts M x noise
    loss := forward_mse_loss M x noise + forward_l1_loss M x noise +
      (forward_ghost M x noise dead_neuron_mask).val
    mse_loss := forward_mse_loss M x noise
    l1_loss := forward_l1_loss M x noise
    ghost_grad_loss := forward_ghost M x noise dead_neuron_mask }

/-! ## Normalization and gradient-projection utilities (lines 259-292) -/

/-- `set_decoder_norm_to_unit_norm`: divides every decoder row by its raw L2
norm — `W_dec.data /= torch.norm(W_dec.data, dim=1, keepdim=True)` (lines
259-261).  The divisor has no epsilon guard. -/
noncomputable def set_decoder_norm_to_unit_norm {m n : ℕ} (W : Mat m n) : Mat m n :=
  fun i j => W i j / decoder_row_norm_divisor W i

/-- `initialize_decoder_norm_constant_norm(norm=0.1)`: first divides each row by
its raw norm, then multiplies the whole matrix by the float literal `0.1`
(`self.W_dec.data *= 0.1`, line 273) — the `norm` argument is not used by the
body. -/
noncomputable def initialize_decoder_norm_constant_norm {m n : ℕ} (norm : ℝ)
    (W : Mat m n) : Mat m n :=
  fun i j => W i j / decoder_row_norm_divisor W i * (1 / 10)

/-- `remove_gradient_parallel_to_decoder_directions` (lines 275-292): per row,
subtract `(grad ⬝ row) * row` from the gradient. -/
noncomputable def remove_gradient_parallel_to_decoder_directions {m n : ℕ}
    (W grad : Mat m n) : Mat m n :=
  fun s j => grad s j - dot (grad s) (W s) * W s j

/-! ## Decoder/encoder initialization at construction (lines 74-113)

The library draws (`kaiming_uniform_`, `orthogonal_`, `torch.rand`) are passed
in as explicit matrices. -/

/-- The four initialization-relevant config flags. -/
structure InitFlags where
  decoder_orthogonal_init : Bool
  decoder_heuristic_init : Bool
  normalize_sae_decoder : Bool
  init_encoder_as_decoder_transpose : Bool

/-- `W_dec` after the `if/elif` initialization chain (lines 74-90):
orthogonal draw, else heuristic constant-norm rescale of a uniform draw, else
unit-norm rescale of the Kaiming draw, else the raw Kaiming draw. -/
noncomputable def w_dec_after_branches {ds di : ℕ} (flags : InitFlags)
    (kaimingDec orthDec randDec : Mat ds di) : Mat ds di :=
  if flags.decoder_orthogonal_init then orthDec
  else if flags.decoder_heuristic_init then
    initialize_decoder_norm_constant_norm (1 / 10) randDec
  else if flags.normalize_sae_decoder then set_decoder_norm_to_unit_norm kaimingDec
  else kaimingDec

/-- `W_dec` at the end of `__init__`: after the branch chain, a final
`set_decoder_norm_to_unit_norm` pass runs whenever `normalize_sae_decoder`
is set (lines 110-113), after the encoder transpose-copy. -/
noncomputable def w_dec_constructed {ds di : ℕ} (flags : InitFlags)
    (kaimingDec orthDec randDec : Mat ds di) : Mat ds di :=
  if flags.normalize_sae_decoder then
    set_decoder_norm_to_unit_norm (w_dec_after_branches flags kaimingDec orthDec randDec)
  else
    w_dec_after_branches flags kaimingDec orthDec randDec

/-- `W_enc` at the end of `__init__` (lines 92-108): a transposed copy of
`W_dec` as it stands after the branch chain — before the final unit-norm
pass — when `init_encoder_as_decoder_transpose` is set, else a fresh Kaiming
draw (the draw of lines 92-96 is overwritten in both branches). -/
noncomputable def w_enc_constructed {ds di : ℕ} (flags : InitFlags)
    (kaimingDec orthDec randDec : Mat ds di) (kaimingEnc kaimingEnc2 : Mat di ds) :
    Mat di ds :=
  if flags.init_encoder_as_decoder_transpose then
    fun j s => w_dec_after_branches flags kaimingDec orthDec randDec s j
  else kaimingEnc2

/-! ## Gradient-graph dependence semantics for the ghost loss

To state what `.detach()` removes from the computation graph, each tensor of
`calculate_ghost_grad_loss` is abstracted to the set of upstream graph leaves
it depends on.  Arithmetic on tensors unions the dependence sets of its
operands; `.detach()` empties it.  This mirrors lines 344-366 leg by leg. -/

/-- Dependence effect of `.detach()`: the result depends on nothing. -/
def dDetach (_d : Finset ℕ) : Finset ℕ := ∅

/-- The dependence-set transcription of `calculate_ghost_grad_loss`
(lines 344-366), taking the dependence sets of the five tensor arguments
`x`, `sae_out`, `per_item_mse_loss`, `hidden_pre` and of the parameter
`W_dec`, and returning the dependence set of the returned loss. -/
def ghost_grad_loss_deps (dX dSaeOut dPerItemMse dHiddenPre dWdec : Finset ℕ) :
    Finset ℕ :=
  let dResidual := dX ∪ dSaeOut
  let dL2NormResidual := dResidual
  let dFeatureActsDead := dHiddenPre
  let dGhostOut := dFeatureActsDead ∪ dWdec
  let dL2NormGhostOut := dGhostOut
  let dNormScalingFactor := dL2NormResidual ∪ dL2NormGhostOut
  let dGhostOutRescaled := dGhostOut ∪ dDetach dNormScalingFactor
  let dTarget := dDetach dResidual
  let dPerItemGhost := dGhostOutRescaled ∪ dTarget
  let dMseRescalingFactor := dDetach (dPerItemMse ∪ dPerItemGhost)
  dMseRescalingFactor ∪ dPerItemGhost

/-! ## Concrete instances used by counterexamples and witnesses -/

/-- A concrete 1×2 decoder matrix with the single row `(3, 4)` (norm 5). -/
noncomputable def W34 : Mat 1 2 := ![![3, 4]]

/-- A concrete 1×2 decoder matrix whose single row is all-zero. -/
noncomputable def Wzero : Mat 1 2 := fun _ _ => 0

/-- Concrete decoder weights with row `(2, 0)` (norm 2, not unit). -/
noncomputable def Wc3 : Mat 1 2 := ![![2, 0]]

/-- Concrete accumulated gradient with row `(1, 0)`. -/
noncomputable def Gc3 : Mat 1 2 := ![![1, 0]]

/-- Concrete decoder weights with the unit row `(1, 0)`. -/
noncomputable def Ww3 : Mat 1 2 := ![![1, 0]]

/-- Concrete accumulated gradient with row `(5, 7)`. -/
noncomputable def Gw3 : Mat 1 2 := ![![5, 7]]

lemma normSq_W34 : normSq (W34 0) = 25 := by
  unfold normSq W34
  rw [Fin.sum_univ_two]
  norm_num [Matrix.cons_val_zero, Matrix.cons_val_one, Matrix.head_cons]

lemma l2norm_W34 : l2norm (W34 0) = 5 := by
  unfold l2norm
  rw [normSq_W34, show (25 : ℝ) = 5 ^ 2 by norm_num, Real.sqrt_sq (by norm_num)]

/-! ## Claim theorems -/

/-- Claim C1, counterexample: for the configuration `d_in = 0` (an integer that
is not positive) with `d_sae` present, the construction-time validation
succeeds instead of failing with a configuration error. -/
theorem c1_counterexample :
    init_validation (PyDIn.intVal 0) (some 8) = Except.ok () ∧ (0 : Int) ≤ 0 :=
  ⟨rfl, le_refl 0⟩

/-- Claim C1 (amended): construction fails with the configuration error
(`ValueError`) exactly when `d_in` is not an `int` — an integer `d_in ≤ 0`
passes the explicit validation — and fails with an assertion error exactly
when `d_in` is an `int` and `d_sae` is absent. -/
theorem c1_validation_characterization :
    ∀ (d_in : PyDIn) (d_sae : Option Int),
      (init_validation d_in d_sae = Except.error InitError.valueError ↔
        d_in = PyDIn.nonInt) ∧
      (init_validation d_in d_sae = Except.error InitError.assertionError ↔
        d_in ≠ PyDIn.nonInt ∧ d_sae = none) ∧
      (init_validation d_in d_sae = Except.ok () ↔
        d_in ≠ PyDIn.nonInt ∧ d_sae ≠ none) := by
  intro d_in d_sae
  cases d_in <;> cases d_sae <;> simp [init_validation]

/-- Claim C2: with the supplied norm argument `0.5` and the decoder row
`(3, 4)`, `initialize_decoder_norm_constant_norm` leaves the row with L2 norm
`0.1` — the literal the body multiplies by — rather than the supplied `0.5`:
the `norm` parameter is ignored (the source comments `will break tests but do
this for now`). -/
theorem c2_constant_norm_ignores_argument :
    l2norm (initialize_decoder_norm_constant_norm ((1 : ℝ) / 2) W34 0) = 1 / 10 ∧
      ((1 : ℝ) / 10) ≠ 1 / 2 := by
  constructor
  · have hrow : initialize_decoder_norm_constant_norm ((1 : ℝ) / 2) W34 0 =
        fun j => W34 0 j * (1 / 50) := by
      funext j
      unfold initialize_decoder_norm_constant_norm decoder_row_norm_divisor
      rw [l2norm_W34]
      ring
    rw [hrow, l2norm_smul_right _ _ (by norm_num), l2norm_W34]
    norm_num
  · norm_num

/-- Claim C4, counterexample: the divisor of `set_decoder_norm_to_unit_norm`
(and of `initialize_decoder_norm_constant_norm`) is the raw row norm with no
epsilon guard, and on a decoder matrix with an all-zero row it is exactly
zero. -/
theorem c4_counterexample : decoder_row_norm_divisor Wzero 0 = 0 := by
  have h : normSq (Wzero 0) = 0 := by
    unfold normSq Wzero
    rw [Fin.sum_univ_two]
    norm_num
  unfold decoder_row_norm_divisor l2norm
  rw [h, Real.sqrt_zero]

lemma per_item_mse_nonneg {b d : ℕ} (preds target : Fin b → Vec d)
    (mode : MseNormMode) (i : Fin b) (j : Fin d) :
    0 ≤ per_item_mse_loss_with_target_norm preds target mode i j := by
  cases mode with
  | denseBatch =>
    have h := l2norm_nonneg (fun k => target i k - (∑ b', target b' k) / (b : ℝ))
    simp only [per_item_mse_loss_with_target_norm]
    apply div_nonneg (sq_nonneg _)
    unfold dense_batch_divisor eps6
    linarith
  | other =>
    simp only [per_item_mse_loss_with_target_norm]
    exact sq_nonneg _

/-- Claim C4 (amended): the divisions of the ghost-gradient path and of the
dense-batch MSE normalization are epsilon-guarded — their divisors are
strictly positive on every reachable input — but `set_decoder_norm_to_unit_norm`
and `initialize_decoder_norm_constant_norm` divide by the raw row norm with no
guard, and that divisor is exactly zero on an all-zero decoder row (the tensor
library then produces non-finite entries rather than raising). -/
theorem c4_divisors :
    (∀ (k : ℕ) (g : Vec k), 0 < ghost_norm_divisor (l2norm g)) ∧
    (∀ (b d : ℕ) (preds target : Fin b → Vec d) (mode : MseNormMode)
        (i : Fin b) (j : Fin d),
      0 < mse_rescale_divisor (per_item_mse_loss_with_target_norm preds target mode i j)) ∧
    (∀ (k : ℕ) (v : Vec k), 0 < dense_batch_divisor (l2norm v)) ∧
    decoder_row_norm_divisor Wzero 0 = 0 := by
  refine ⟨?_, ?_, ?_, ?_⟩
  · intro k g
    have h := l2norm_nonneg g
    unfold ghost_norm_divisor eps6
    linarith
  · intro b d preds target mode i j
    have h := per_item_mse_nonneg preds target mode i j
    unfold mse_rescale_divisor eps6
    linarith
  · intro k v
    have h := l2norm_nonneg v
    unfold dense_batch_divisor eps6
    linarith
  · have h : normSq (Wzero 0) = 0 := by
      unfold normSq Wzero
      rw [Fin.sum_univ_two]
      norm_num
    unfold decoder_row_norm_divisor l2norm
    rw [h, Real.sqrt_zero]

/-- Claim C3, counterexample: with the decoder row `(2, 0)` (norm 2, not unit)
and gradient row `(1, 0)`, the projected gradient is not orthogonal to the
row: the dot product is `-6`, not `0`.  The claim's "no stated precondition on
the rows' norms" fails. -/
theorem c3_counterexample :
    dot (Wc3 0) (remove_gradient_parallel_to_decoder_directions Wc3 Gc3 0) ≠ 0 := by
  have h : dot (Wc3 0) (remove_gradient_parallel_to_decoder_directions Wc3 Gc3 0) = -6 := by
    simp only [dot, remove_gradient_parallel_to_decoder_directions, Wc3, Gc3]
    rw [Fin.sum_univ_two]
    norm_num [Matrix.cons_val_zero, Matrix.cons_val_one, Matrix.head_cons,
      Fin.sum_univ_two]
  rw [h]
  norm_num

/-- Claim C3 (amended): when every decoder row has unit L2 norm — the invariant
the utility is designed to preserve — the gradient left in place by
`remove_gradient_parallel_to_decoder_directions` is orthogonal to each row:
`dot(row, projected_grad_row) = 0` for every row. -/
theorem c3_orthogonal_for_unit_rows :
    ∀ (m n : ℕ) (W grad : Mat m n),
      (∀ s, l2norm (W s) = 1) →
      ∀ s, dot (W s) (remove_gradient_parallel_to_decoder_directions W grad s) = 0 := by
  intro m n W grad h s
  have hn : (∑ j, W s j * W s j) = 1 := by
    have h1 : normSq (W s) = 1 := (l2norm_eq_one_iff (W s)).mp (h s)
    unfold normSq at h1
    calc (∑ j, W s j * W s j) = ∑ j, W s j ^ 2 :=
          Finset.sum_congr rfl fun j _ => by ring
      _ = 1 := h1
  simp only [dot, remove_gradient_parallel_to_decoder_directions]
  calc (∑ j, W s j * (grad s j - (∑ k, grad s k * W s k) * W s j))
      = ∑ j, (W s j * grad s j - (∑ k, grad s k * W s k) * (W s j * W s j)) :=
        Finset.sum_congr rfl fun j _ => by ring
    _ = (∑ j, W s j * grad s j) - (∑ k, grad s k * W s k) * ∑ j, W s j * W s j := by
        rw [Finset.sum_sub_distrib, ← Finset.mul_sum]
    _ = (∑ j, W s j * grad s j) - ∑ k, grad s k * W s k := by rw [hn, mul_one]
    _ = 0 := by
        rw [sub_eq_zero]
        exact Finset.sum_congr rfl fun j _ => mul_comm _ _

/-- Witness for the amended C3 at the concrete unit row `(1, 0)` and gradient
row `(5, 7)`. -/
theorem c3_witness :
    dot (Ww3 0) (remove_gradient_parallel_to_decoder_directions Ww3 Gw3 0) = 0 :=
  c3_orthogonal_for_unit_rows 1 2 Ww3 Gw3
    (fun s => by
      have hs : s = 0 := Subsingleton.elim s 0
      subst hs
      have h : normSq (Ww3 0) = 1 := by
        unfold normSq Ww3
        rw [Fin.sum_univ_two]
        norm_num [Matrix.cons_val_zero, Matrix.cons_val_one, Matrix.head_cons]
      unfold l2norm
      rw [h, Real.sqrt_one])
    0

/-- The init flags of a configuration with `normalize_sae_decoder` set and the
other three initialization flags clear. -/
noncomputable def flagsN : InitFlags := ⟨false, false, true, false⟩

/-- Claim C7: for every configuration with `normalize_sae_decoder` true —
whatever the other flags, including `init_encoder_as_decoder_transpose` — and
every draw whose rows are nonzero when the final normalization pass runs,
every row of `W_dec` has L2 norm 1 immediately after construction; and when
the transpose flag is also set, `W_enc` is copied from `W_dec` as it stands
before that final unit-norm pass. -/
theorem c7_decoder_rows_unit_after_construction
    (ds di : ℕ) (flags : InitFlags) (kDec oDec rDec : Mat ds di)
    (kEnc kEnc2 : Mat di ds)
    (hnorm : flags.normalize_sae_decoder = true)
    (hnz : ∀ s, normSq (w_dec_after_branches flags kDec oDec rDec s) ≠ 0) :
    (∀ s, l2norm (w_dec_constructed flags kDec oDec rDec s) = 1) ∧
    (flags.init_encoder_as_decoder_transpose = true →
      w_enc_constructed flags kDec oDec rDec kEnc kEnc2 =
        fun j s => w_dec_after_branches flags kDec oDec rDec s j) := by
  constructor
  · intro s
    have hW : w_dec_constructed flags kDec oDec rDec =
        set_decoder_norm_to_unit_norm (w_dec_after_branches flags kDec oDec rDec) := by
      unfold w_dec_constructed
      rw [hnorm]
      simp
    rw [hW]
    have hne : l2norm (w_dec_after_branches flags kDec oDec rDec s) ≠ 0 := by
      intro h0
      exact hnz s ((l2norm_eq_zero_iff _).mp h0)
    show l2norm (fun j => w_dec_after_branches flags kDec oDec rDec s j /
        decoder_row_norm_divisor (w_dec_after_branches flags kDec oDec rDec) s) = 1
    unfold decoder_row_norm_divisor
    exact l2norm_div_self _ hne
  · intro ht
    unfold w_enc_constructed
    rw [ht]
    simp

/-- Witness for C7: with only `normalize_sae_decoder` set and the Kaiming draw
`[[3, 4]]`, the constructed decoder's single row has L2 norm 1. -/
theorem c7_witness : l2norm (w_dec_constructed flagsN W34 W34 W34 0) = 1 :=
  (c7_decoder_rows_unit_after_construction 1 2 flagsN W34 W34 W34
    (fun _ _ => 0) (fun _ _ => 0) rfl
    (fun s => by
      have hs : s = 0 := Subsingleton.elim s 0
      subst hs
      have hmid : w_dec_after_branches flagsN W34 W34 W34 =
          set_decoder_norm_to_unit_norm W34 := by
        simp [w_dec_after_branches, flagsN]
      rw [hmid]
      have h1 : l2norm (set_decoder_norm_to_unit_norm W34 0) = 1 := by
        show l2norm (fun j => W34 0 j / decoder_row_norm_divisor W34 0) = 1
        unfold decoder_row_norm_divisor
        apply l2norm_div_self
        rw [l2norm_W34]
        norm_num
      have h2 := (l2norm_eq_one_iff _).mp h1
      rw [h2]
      norm_num)).1 0

/-- Claim C8: when every decoder row has L2 norm exactly 1, the decoder-norm-
scaled sparsity term coincides with the standard sparsity term on the same
feature activations — the per-row scaling factor is 1 everywhere. -/
theorem c8_sparsity_terms_equal_for_unit_rows
    (b di ds : ℕ) (M : SparseAutoencoder di ds) (feature_acts : Fin b → Vec ds)
    (h : ∀ s, l2norm (M.W_dec s) = 1) :
    get_sparsity_loss_term_decoder_norm M feature_acts =
      get_sparsity_loss_term_standard M feature_acts := by
  funext bb
  unfold get_sparsity_loss_term_decoder_norm get_sparsity_loss_term_standard
  congr 1
  funext s
  rw [h s, mul_one]

/-- A concrete model instance: `d_in = d_sae = 1`, all-ones weights, zero
biases, `noise_scale = 0`, ghost gradients off. -/
noncomputable def Mex : SparseAutoencoder 1 1 where
  W_enc := fun _ _ => 1
  b_enc := fun _ => 0
  W_dec := fun _ _ => 1
  b_dec := fun _ => 0
  scaling_factor := fun _ => 1
  l1_coefficient := 1
  lp_norm := 1
  use_ghost_grads := false
  normalize_sae_decoder := false
  noise_scale := 0
  apply_b_dec_to_input := true
  scale_sparsity_penalty_by_decoder_norm := false
  mse_loss_normalization := .other
  training := true

/-- A concrete feature-activation batch. -/
noncomputable def faex : Fin 1 → Vec 1 := fun _ _ => 2

/-- Witness for C8 at the concrete model `Mex` (unit decoder row) and the
feature activations `faex`. -/
theorem c8_witness :
    get_sparsity_loss_term_decoder_norm Mex faex =
      get_sparsity_loss_term_standard Mex faex :=
  c8_sparsity_terms_equal_for_unit_rows 1 1 1 Mex faex
    (fun s => by
      have h : normSq (Mex.W_dec s) = 1 := by
        simp [normSq, Mex, Fin.sum_univ_one]
      unfold l2norm
      rw [h, Real.sqrt_one])

/-- Claim C9: with `noise_scale = 0`, `encode` is deterministic — the Gaussian
draw does not reach the computation, so two calls with different draws agree —
and the output is exactly `ReLU` of the noise-free pre-activation. -/
theorem c9_encode_deterministic
    (b di ds : ℕ) (M : SparseAutoencoder di ds) (x : Fin b → Vec di)
    (h : M.noise_scale = 0) :
    ∀ noise1 noise2 : Fin b → Vec ds,
      encode M x noise1 = encode M x noise2 ∧
      encode M x noise1 = fun bb s => relu (hidden_pre_calc M x bb s) := by
  intro n1 n2
  have hnp : ∀ noise : Fin b → Vec ds,
      noisy_hidden_pre M x noise = hidden_pre_calc M x := by
    intro noise
    unfold noisy_hidden_pre
    rw [h]
    simp
  constructor
  · show (fun bb s => relu (noisy_hidden_pre M x n1 bb s)) =
      fun bb s => relu (noisy_hidden_pre M x n2 bb s)
    rw [hnp n1, hnp n2]
  · show (fun bb s => relu (noisy_hidden_pre M x n1 bb s)) =
      fun bb s => relu (hidden_pre_calc M x bb s)
    rw [hnp n1]

/-- A concrete input batch. -/
noncomputable def xex : Fin 1 → Vec 1 := fun _ _ => 1

/-- A concrete Gaussian draw. -/
noncomputable def nex1 : Fin 1 → Vec 1 := fun _ _ => 3

/-- Another concrete Gaussian draw. -/
noncomputable def nex2 : Fin 1 → Vec 1 := fun _ _ => 7

/-- Witness for C9: at the concrete model `Mex` (whose `noise_scale` is 0),
encoding with two different Gaussian draws gives the same output. -/
theorem c9_witness : encode Mex xex nex1 = encode Mex xex nex2 :=
  ((c9_encode_deterministic 1 1 1 Mex xex rfl) nex1 nex2).1

/-- Claim C5: `forward` returns a `ghost_grad_loss` that is the plain Python
scalar `0` — of value exactly 0 and absent from the loss's gradient graph, so
that `loss = mse_loss + l1_loss` — precisely when the four-way gate fails:
`use_ghost_grads` false, or not training, or no mask, or mask sum zero; the
ghost branch is entered only when all four conditions hold. -/
theorem c5_ghost_gating :
    ∀ (b di ds : ℕ) (M : SparseAutoencoder di ds) (x : Fin b → Vec di)
      (noise : Fin b → Vec ds) (mask : Option (Fin ds → Bool)),
      ((forward M x noise mask).ghost_grad_loss = GhostVal.pyZero ↔
        ¬(M.use_ghost_grads = true ∧ M.training = true ∧
          ∃ m, mask = some m ∧ 0 < maskSum m)) ∧
      ((forward M x noise mask).ghost_grad_loss = GhostVal.pyZero →
        (forward M x noise mask).ghost_grad_loss.val = 0 ∧
        (forward M x noise mask).loss =
          (forward M x noise mask).mse_loss + (forward M x noise mask).l1_loss) := by
  intro b di ds M x noise mask
  constructor
  · show forward_ghost M x noise mask = GhostVal.pyZero ↔ _
    cases mask with
    | none =>
      constructor
      · intro _
        rintro ⟨_, _, m', hm', _⟩
        exact Option.noConfusion hm'
      · intro _
        rfl
    | some m =>
      show (if M.use_ghost_grads && M.training && decide (0 < maskSum m) then
          GhostVal.tensor (calculate_ghost_grad_loss M x (forward_sae_out M x noise)
            (forward_per_item_mse M x noise) (forward_hidden_pre M x noise) m)
        else GhostVal.pyZero) = GhostVal.pyZero ↔ _
      by_cases hc : (M.use_ghost_grads && M.training && decide (0 < maskSum m)) = true
      · rw [if_pos hc]
        rw [Bool.and_eq_true, Bool.and_eq_true, decide_eq_true_eq] at hc
        obtain ⟨⟨hug, htr⟩, hsum⟩ := hc
        exact ⟨fun habs => GhostVal.noConfusion habs,
          fun hneg => absurd ⟨hug, htr, m, rfl, hsum⟩ hneg⟩
      · rw [if_neg hc]
        constructor
        · intro _
          rintro ⟨hug, htr, m', hm', hsum⟩
          obtain rfl : m' = m := (Option.some.inj hm').symm
          exact hc (by
            rw [Bool.and_eq_true, Bool.and_eq_true, decide_eq_true_eq]
            exact ⟨⟨hug, htr⟩, hsum⟩)
        · intro _
          rfl
  · intro hzero
    have hg : forward_ghost M x noise mask = GhostVal.pyZero := hzero
    constructor
    · show (forward_ghost M x noise mask).val = 0
      rw [hg]
      simp [GhostVal.val]
    · show forward_mse_loss M x noise + forward_l1_loss M x noise +
          (forward_ghost M x noise mask).val =
        forward_mse_loss M x noise + forward_l1_loss M x noise
      rw [hg]
      simp [GhostVal.val]

/-- Claim C6: (value) after the rescaling of line 353, each item's ghost
reconstruction has L2 norm `‖residual‖ · ‖ghost‖ / (1e-6 + 2‖ghost‖)` — i.e.
half the residual's norm up to the epsilon guard; (graph) in the dependence
semantics of the same function, the returned ghost loss depends only on the
`hidden_pre` and `W_dec` legs: the detached norm-rescale factor, the detached
residual target of the ghost MSE, and the detached real-to-ghost loss factor
contribute no gradient-graph dependence. -/
theorem c6_ghost_rescaling_and_detach :
    (∀ (b di ds : ℕ) (M : SparseAutoencoder di ds) (x sae_out : Fin b → Vec di)
        (hidden_pre : Fin b → Vec ds) (mask : Fin ds → Bool) (bb : Fin b),
      l2norm (ghost_out_rescaled M x sae_out hidden_pre mask bb) =
        l2norm (ghost_residual x sae_out bb) *
          l2norm (ghost_out_raw M hidden_pre mask bb) /
          ghost_norm_divisor (l2norm (ghost_out_raw M hidden_pre mask bb))) ∧
    (∀ dX dSaeOut dPerItemMse dHiddenPre dWdec : Finset ℕ,
      ghost_grad_loss_deps dX dSaeOut dPerItemMse dHiddenPre dWdec =
        dHiddenPre ∪ dWdec) := by
  constructor
  · intro b di ds M x sae_out hidden_pre mask bb
    have hD : 0 < ghost_norm_divisor (l2norm (ghost_out_raw M hidden_pre mask bb)) := by
      have h := l2norm_nonneg (ghost_out_raw M hidden_pre mask bb)
      unfold ghost_norm_divisor eps6
      linarith
    have hc : 0 ≤ norm_scaling_factor M x sae_out hidden_pre mask bb := by
      unfold norm_scaling_factor
      exact div_nonneg (l2norm_nonneg _) (le_of_lt hD)
    have hre : ghost_out_rescaled M x sae_out hidden_pre mask bb =
        fun j => ghost_out_raw M hidden_pre mask bb j *
          norm_scaling_factor M x sae_out hidden_pre mask bb := by
      funext j
      rfl
    rw [hre, l2norm_smul_right _ _ hc]
    unfold norm_scaling_factor
    ring
  · intro dX dSaeOut dPerItemMse dHiddenPre dWdec
    simp [ghost_grad_loss_deps, dDetach]

/-- Claim C10: the `hidden_pre` returned by `_encode_with_hidden_pre` is the
noise-free `sae_in @ W_enc + b_enc` — identical for any Gaussian draw — while
the draw reaches only `feature_acts`, through the ReLU of the noisy
pre-activation; consequently, whenever the ghost branch of `forward` runs, the
pre-activations it exponentiates are the noise-free ones. -/
theorem c10_hidden_pre_noise_free :
    ∀ (b di ds : ℕ) (M : SparseAutoencoder di ds) (x : Fin b → Vec di)
      (noise : Fin b → Vec ds),
      (encode_with_hidden_pre M x noise).2 = hidden_pre_calc M x ∧
      (∀ noise', (encode_with_hidden_pre M x noise).2 =
        (encode_with_hidden_pre M x noise').2) ∧
      ((encode_with_hidden_pre M x noise).1 = fun bb s =>
        relu (hidden_pre_calc M x bb s +
          if M.noise_scale > 0 then noise bb s * M.noise_scale else 0)) ∧
      (∀ m : Fin ds → Bool,
        (M.use_ghost_grads && M.training && decide (0 < maskSum m)) = true →
        forward_ghost M x noise (some m) =
          GhostVal.tensor (calculate_ghost_grad_loss M x (forward_sae_out M x noise)
            (forward_per_item_mse M x noise) (hidden_pre_calc M x) m)) := by
  intro b di ds M x noise
  refine ⟨rfl, fun noise' => rfl, ?_, ?_⟩
  · show (fun bb s => relu (noisy_hidden_pre M x noise bb s)) = _
    unfold noisy_hidden_pre
    by_cases hpos : M.noise_scale > 0
    · rw [if_pos hpos]
      funext bb s
      rw [if_pos hpos]
    · rw [if_neg hpos]
      funext bb s
      rw [if_neg hpos, add_zero]
  · intro m hm
    show (if M.use_ghost_grads && M.training && decide (0 < maskSum m) then
        GhostVal.tensor (calculate_ghost_grad_loss M x (forward_sae_out M x noise)
          (forward_per_item_mse M x noise) (forward_hidden_pre M x noise) m)
      else GhostVal.pyZero) = _
    rw [if_pos hm]
    rfl
